import Mathlib

/-!
Verification of the `compare` fluent assertion library against its source.

The development shallowly embeds the two wrapper classes of the repository:

* `Expression` / `Callable` from `src/compare3/Expression.py` — a wrapper
  holding a subject value and a polarity flag (`_determinant`), whose matcher
  methods route every pass/fail decision through `Expression._ensure`;
* the `matcher` registration helper from `src/compare.py`, which attaches a
  function to the wrapper class via `setattr`.

Python values are embedded as the inductive `PyVal` (None, bool, int, str,
list, dict); floats are modelled as exact rationals where the code coerces
with `float()`.  Python built-ins used by the matchers (`==`, `<`, `in`,
`int()`, `float()`, `bool()`, `str()`, `isinstance`, `re.fullmatch`) are
embedded as executable Lean functions.  Fallible Python code is embedded in
`Except PyError`; an expectation failure is the error kind
`UnmetExpectation` from `src/compare3/errors.py`.

Dict values are modelled as ordered association lists with distinct keys;
equality of dicts is entrywise in order (adequate here: no claim compares
two dicts).
-/

/-- Embedded Python values: `None`, `bool`, `int`, `str`, `list`, `dict`. -/
inductive PyVal : Type where
  | VNone : PyVal
  | VBool : Bool → PyVal
  | VInt : Int → PyVal
  | VStr : String → PyVal
  | VList : List PyVal → PyVal
  | VDict : List (PyVal × PyVal) → PyVal
deriving Repr

mutual

/-- Python `==` on embedded values.  Booleans compare equal to the
integers 0/1 (in Python `bool` is a subclass of `int`); values of
otherwise distinct types are unequal; lists compare elementwise; dicts
(modelled as ordered association lists) compare entrywise. -/
def pyEq : PyVal → PyVal → Bool
  | .VNone, .VNone => true
  | .VBool a, .VBool b => a == b
  | .VBool a, .VInt b => (if a then (1 : Int) else 0) == b
  | .VInt a, .VBool b => a == (if b then (1 : Int) else 0)
  | .VInt a, .VInt b => a == b
  | .VStr a, .VStr b => a == b
  | .VList a, .VList b => pyEqList a b
  | .VDict a, .VDict b => pyEqDict a b
  | _, _ => false

/-- Elementwise equality of Python lists. -/
def pyEqList : List PyVal → List PyVal → Bool
  | [], [] => true
  | a :: as, b :: bs => pyEq a b && pyEqList as bs
  | _, _ => false

/-- Entrywise equality of Python dicts (ordered association-list model). -/
def pyEqDict : List (PyVal × PyVal) → List (PyVal × PyVal) → Bool
  | [], [] => true
  | (k, v) :: as, (k', v') :: bs => pyEq k k' && pyEq v v' && pyEqDict as bs
  | _, _ => false

end

example : pyEq (.VList [.VInt 1, .VStr "a"]) (.VList [.VBool true, .VStr "a"]) = true := rfl
example : pyEq (.VDict [(.VStr "x", .VInt 1)]) (.VDict [(.VStr "x", .VInt 1)]) = true := rfl
example : pyEq (.VInt 3) (.VStr "3") = false := rfl

deriving instance DecidableEq for Except

/-- Kinds of Python exceptions appearing in the embedded code.
`unmetExpectation` is the class from `src/compare3/errors.py`; it subclasses
`AssertionError`, and every kind subclasses `Exception`. -/
inductive PyErrorKind : Type where
  | unmetExpectation : PyErrorKind
  | assertionError : PyErrorKind
  | valueError : PyErrorKind
  | typeError : PyErrorKind
  | exceptionK : PyErrorKind
deriving DecidableEq, Repr

/-- A raised Python exception: its class and its `str(e)` message. -/
structure PyError : Type where
  kind : PyErrorKind
  msg : String
deriving DecidableEq, Repr

/-- Python `isinstance(e, target)` restricted to the modelled exception
classes: a class is an instance of itself, of `Exception`, and
`UnmetExpectation` is an instance of `AssertionError` (see
`src/compare3/errors.py`). -/
def isinstanceK (k target : PyErrorKind) : Bool :=
  k == target || target == .exceptionK ||
    (k == .unmetExpectation && target == .assertionError)

mutual

/-- Python `repr` of embedded values (string escaping not modelled: the
repository never formats strings containing quotes). -/
def pyRepr : PyVal → String
  | .VNone => "None"
  | .VBool b => if b then "True" else "False"
  | .VInt n => toString n
  | .VStr s => "'" ++ s ++ "'"
  | .VList l => "[" ++ pyReprList l ++ "]"
  | .VDict d => "\x7b" ++ pyReprDict d ++ "\x7d"

/-- Comma-separated `repr` of list elements. -/
def pyReprList : List PyVal → String
  | [] => ""
  | [a] => pyRepr a
  | a :: as => pyRepr a ++ ", " ++ pyReprList as

/-- Comma-separated `repr` of dict entries. -/
def pyReprDict : List (PyVal × PyVal) → String
  | [] => ""
  | [(k, v)] => pyRepr k ++ ": " ++ pyRepr v
  | (k, v) :: as => pyRepr k ++ ": " ++ pyRepr v ++ ", " ++ pyReprDict as

end

/-- Python `str` of embedded values (containers display their elements
with `repr`, exactly as Python's `format`/`str` do). -/
def pyStr : PyVal → String
  | .VStr s => s
  | v => pyRepr v

/-- Python truthiness `bool(v)`: false for `None`, `False`, `0`, and the
empty string/list/dict. -/
def pyBool : PyVal → Bool
  | .VNone => false
  | .VBool b => b
  | .VInt n => n != 0
  | .VStr s => !s.isEmpty
  | .VList l => !l.isEmpty
  | .VDict d => !d.isEmpty

/-- Value of a nonempty all-digit character list, `none` otherwise. -/
def decValue : List Char → Option Nat
  | [] => none
  | cs =>
    if cs.all Char.isDigit then
      some (cs.foldl (fun a c => 10 * a + (c.toNat - 48)) 0)
    else none

/-- Python integer-literal parsing as used by `int(string)`: an optional
sign followed by decimal digits (whitespace stripping and underscore
grouping are not modelled; the repository never uses them). -/
def parseIntLit (s : String) : Option Int :=
  match s.toList with
  | '+' :: rest => (decValue rest).map Int.ofNat
  | '-' :: rest => (decValue rest).map (fun n => -(n : Int))
  | cs => (decValue cs).map Int.ofNat

/-- Python `int(v)`: identity on ints, 0/1 on bools, literal parsing on
strings (raising `ValueError` on malformed literals such as `"20.5"`),
`TypeError` on other types. -/
def pyInt : PyVal → Except PyError Int
  | .VBool b => .ok (if b then 1 else 0)
  | .VInt n => .ok n
  | .VStr s =>
    match parseIntLit s with
    | some n => .ok n
    | none => .error ⟨.valueError, "invalid literal for int() with base 10: '" ++ s ++ "'"⟩
  | v => .error ⟨.typeError, "int() argument must be a string or a number, not " ++ pyStr v⟩

/-- Value of digit lists `ip.fp` as an exact rational. -/
def decFracValue (ip fp : List Char) : Option Rat :=
  if ip.isEmpty && fp.isEmpty then none
  else if (ip ++ fp).all Char.isDigit then
    some ((ip.foldl (fun a c => 10 * a + (c.toNat - 48)) 0 : Nat)
      + ((fp.foldl (fun a c => 10 * a + (c.toNat - 48)) 0 : Nat) : Rat) / ((10 : Rat) ^ fp.length))
  else none

/-- Python float-literal parsing as used by `float(string)`, modelled as an
exact rational: optional sign, decimal digits with an optional point
(exponents not modelled; the repository only coerces plain decimals). -/
def parseFloatLit (s : String) : Option Rat :=
  let core : List Char → Option Rat := fun cs =>
    let ip := cs.takeWhile (· ≠ '.')
    match cs.dropWhile (· ≠ '.') with
    | [] => decFracValue ip []
    | _ :: fp => if fp.contains '.' then none else decFracValue ip fp
  match s.toList with
  | '+' :: rest => core rest
  | '-' :: rest => (core rest).map Neg.neg
  | cs => core cs

/-- Python `float(v)` modelled exactly over the rationals (adequate for the
claims, which never exercise rounding). -/
def pyFloat : PyVal → Except PyError Rat
  | .VBool b => .ok (if b then 1 else 0)
  | .VInt n => .ok (n : Rat)
  | .VStr s =>
    match parseFloatLit s with
    | some q => .ok q
    | none => .error ⟨.valueError, "could not convert string to float: '" ++ s ++ "'"⟩
  | v => .error ⟨.typeError, "float() argument must be a string or a number, not " ++ pyStr v⟩

mutual

/-- Python `a < b`: numeric comparison across bool/int, lexicographic on
strings and on lists, `TypeError` for unordered type combinations. -/
def pyLt : PyVal → PyVal → Except PyError Bool
  | .VBool a, .VBool b => .ok (decide ((if a then (1 : Int) else 0) < (if b then (1 : Int) else 0)))
  | .VBool a, .VInt b => .ok (decide ((if a then (1 : Int) else 0) < b))
  | .VInt a, .VBool b => .ok (decide (a < (if b then (1 : Int) else 0)))
  | .VInt a, .VInt b => .ok (decide (a < b))
  | .VStr a, .VStr b => .ok (decide (a < b))
  | .VList a, .VList b => pyLtList a b
  | a, b => .error ⟨.typeError,
      "'<' not supported between instances of " ++ pyStr a ++ " and " ++ pyStr b⟩

/-- Lexicographic `<` on Python lists: the first non-equal pair decides. -/
def pyLtList : List PyVal → List PyVal → Except PyError Bool
  | [], [] => .ok false
  | [], _ :: _ => .ok true
  | _ :: _, [] => .ok false
  | a :: as, b :: bs => if pyEq a b then pyLtList as bs else pyLt a b

/-- Python `a <= b`, analogous to `pyLt`. -/
def pyLe : PyVal → PyVal → Except PyError Bool
  | .VBool a, .VBool b => .ok (decide ((if a then (1 : Int) else 0) ≤ (if b then (1 : Int) else 0)))
  | .VBool a, .VInt b => .ok (decide ((if a then (1 : Int) else 0) ≤ b))
  | .VInt a, .VBool b => .ok (decide (a ≤ (if b then (1 : Int) else 0)))
  | .VInt a, .VInt b => .ok (decide (a ≤ b))
  | .VStr a, .VStr b => .ok (decide (a ≤ b))
  | .VList a, .VList b => pyLeList a b
  | a, b => .error ⟨.typeError,
      "'<=' not supported between instances of " ++ pyStr a ++ " and " ++ pyStr b⟩

/-- Lexicographic `<=` on Python lists. -/
def pyLeList : List PyVal → List PyVal → Except PyError Bool
  | [], _ => .ok true
  | _ :: _, [] => .ok false
  | a :: as, b :: bs => if pyEq a b then pyLeList as bs else pyLt a b

end

/-- Python `a > b`: for the built-in types modelled here this is the
reflected comparison `b < a`. -/
def pyGt (a b : PyVal) : Except PyError Bool := pyLt b a

/-- Python `a >= b`: the reflected comparison `b <= a`. -/
def pyGe (a b : PyVal) : Except PyError Bool := pyLe b a

/-- Whether `need` is a prefix of `hay` (character lists). -/
def listPrefixOf : List Char → List Char → Bool
  | [], _ => true
  | _ :: _, [] => false
  | a :: as, b :: bs => a == b && listPrefixOf as bs

/-- Whether `need` occurs as a contiguous substring of `hay`. -/
def listInfixOf (need : List Char) : List Char → Bool
  | [] => need.isEmpty
  | hay@(_ :: bs) => listPrefixOf need hay || listInfixOf need bs

/-- Python `x in container`: elementwise `==` membership for lists,
substring search for strings, key membership for dicts, `TypeError`
otherwise. -/
def pyContains (container x : PyVal) : Except PyError Bool :=
  match container, x with
  | .VList l, v => .ok (l.any (fun e => pyEq e v))
  | .VStr s, .VStr sub => .ok (listInfixOf sub.toList s.toList)
  | .VStr _, v => .error ⟨.typeError,
      "'in <string>' requires string as left operand, not " ++ pyStr v⟩
  | .VDict d, k => .ok (d.any (fun e => pyEq e.1 k))
  | c, _ => .error ⟨.typeError, "argument of type " ++ pyStr c ++ " is not iterable"⟩

/-- Whether a character is in `[a-zA-Z]`. -/
def isAlphaAZ (c : Char) : Bool :=
  (97 ≤ c.toNat && c.toNat ≤ 122) || (65 ≤ c.toNat && c.toNat ≤ 90)

/-- Whether a character is in `[a-zA-Z0-9]`. -/
def isAlnumAZ09 (c : Char) : Bool :=
  isAlphaAZ c || (48 ≤ c.toNat && c.toNat ≤ 57)

/-- Regular expressions over characters, the abstract syntax behind the
patterns the repository hands to `re.fullmatch`. -/
inductive Regex : Type where
  | emp : Regex
  | eps : Regex
  | chr : Char → Regex
  | dot : Regex
  | alt : Regex → Regex → Regex
  | cat : Regex → Regex → Regex
  | star : Regex → Regex
deriving DecidableEq, Repr

/-- Whether a regex accepts the empty word. -/
def Regex.nullable : Regex → Bool
  | .emp => false
  | .eps => true
  | .chr _ => false
  | .dot => false
  | .alt r s => r.nullable || s.nullable
  | .cat r s => r.nullable && s.nullable
  | .star _ => true

/-- Brzozowski derivative of a regex by one character. -/
def Regex.deriv : Regex → Char → Regex
  | .emp, _ => .emp
  | .eps, _ => .emp
  | .chr c, a => if a == c then .eps else .emp
  | .dot, _ => .eps
  | .alt r s, a => .alt (r.deriv a) (s.deriv a)
  | .cat r s, a =>
    if r.nullable then .alt (.cat (r.deriv a) s) (s.deriv a) else .cat (r.deriv a) s
  | .star r, a => .cat (r.deriv a) (.star r)

/-- Whether the regex accepts exactly the whole character list. -/
def Regex.matchList (r : Regex) : List Char → Bool
  | [] => r.nullable
  | c :: cs => (r.deriv c).matchList cs

/-- Python `re.fullmatch(pattern, s) is not None`: the pattern must match
the entire string, not merely a substring of it. -/
def refullmatch (r : Regex) (s : String) : Bool := r.matchList s.toList

/-- The regex matching one literal string. -/
def Regex.lit (s : String) : Regex := s.toList.foldr (fun c r => .cat (.chr c) r) .eps

/-- The regex `.*`. -/
def Regex.dotStar : Regex := .star .dot

example : refullmatch (.cat (Regex.lit "a") (.cat Regex.dotStar (Regex.lit "b"))) "axyzb" = true := rfl
example : refullmatch (Regex.lit "oo") "boom" = false := rfl
example : pyInt (.VStr "20.5") = .error ⟨.valueError, "invalid literal for int() with base 10: '20.5'"⟩ := rfl
example : (pyFloat (.VStr "20.01")).isOk = true := rfl
example : (pyFloat (.VStr "oranges")).isOk = false := rfl
example : pyContains (.VStr "abc") (.VStr "b") = .ok true := rfl
example : pyContains (.VDict [(.VStr "x", .VInt 1)]) (.VStr "x") = .ok true := rfl

/-- Whether a value is Python's `None` (the `is None` identity test). -/
def isVNone : PyVal → Bool
  | .VNone => true
  | _ => false

/-- Python `isinstance(v, numbers.Number)` over the modelled values:
ints and bools are Numbers (`bool` subclasses `int`), nothing else is. -/
def isNumberV : PyVal → Bool
  | .VInt _ => true
  | .VBool _ => true
  | _ => false

/-- The `Expression` wrapper of `src/compare3/Expression.py`: a subject
`value` and the polarity flag `_determinant` (default `True`).  The class's
`logger`/`log` collaborator is omitted: it is observable but non-functional
(spec §4.1), and no method's control flow depends on it. -/
structure Expression : Type where
  _determinant : Bool
  value : PyVal
deriving Repr

/-- `Expression.__init__`: stores the subject and initializes the
determinant to `True`. -/
def Expression.init (value : PyVal) : Expression := ⟨true, value⟩

/-- `Expression._ensure`: the shared evaluation primitive.  Under
affirmative polarity it raises `UnmetExpectation` when
`expression != value_to_match`; under negated polarity it raises when
`expression == value_to_match`; otherwise it returns `self`. -/
def Expression._ensure (self : Expression) (expression value_to_match : Bool)
    (message : String) : Except PyError Expression :=
  if self._determinant then
    if expression != value_to_match then .error ⟨.unmetExpectation, message⟩ else .ok self
  else
    if expression == value_to_match then .error ⟨.unmetExpectation, message⟩ else .ok self

/-- `Expression._message`: the failure-message template
`"'{expected}' is {not }{msg_type} '{actual}'"` (the word `not ` appears
when the determinant is `True`). -/
def Expression._message (self : Expression) (expected actual : String)
    (msg_type : String) : String :=
  "'" ++ expected ++ "' is " ++ (if self._determinant then "not " else "")
    ++ msg_type ++ " '" ++ actual ++ "'"

/-- The `is_` property: sets the determinant to `True` and returns `self`. -/
def Expression.is_ (self : Expression) : Expression := { self with _determinant := true }

/-- The `is_not_` property: sets the determinant to `False` and returns
`self`. -/
def Expression.is_not_ (self : Expression) : Expression := { self with _determinant := false }

/-- The `and_` property: sets the determinant to `True` and returns
`self`. -/
def Expression.and_ (self : Expression) : Expression := { self with _determinant := true }

/-- `Expression.equal_to`: `_ensure(self.value == value, True, ...)`. -/
def Expression.equal_to (self : Expression) (value : PyVal) : Except PyError Expression :=
  self._ensure (pyEq self.value value) true
    (self._message (pyStr self.value) (pyStr value) "equal to")

/-- `Expression.equal_to_as_strings`:
`_ensure(str(self.value) == str(value), True, ...)`. -/
def Expression.equal_to_as_strings (self : Expression) (value : PyVal) :
    Except PyError Expression :=
  self._ensure (pyStr self.value == pyStr value) true
    (self._message (pyStr self.value) (pyStr value) "equal to")

/-- `Expression.equal_to_as_integer`:
`_ensure(int(self.value) == int(value), True, ...)`.  Python evaluates
`int(self.value)` first, then `int(value)`; a conversion error propagates
before `_ensure` is ever reached. -/
def Expression.equal_to_as_integer (self : Expression) (value : PyVal) :
    Except PyError Expression :=
  match pyInt self.value with
  | .error er => .error er
  | .ok a =>
    match pyInt value with
    | .error er => .error er
    | .ok b => self._ensure (a == b) true (self._message (toString a) (toString b) "equal to")

/-- `Expression.equal_to_as_floating_point`:
`_ensure(float(self.value) == float(value), True, ...)` (floats modelled
as exact rationals; their display in the message uses the rational's
string form rather than Python float formatting). -/
def Expression.equal_to_as_floating_point (self : Expression) (value : PyVal) :
    Except PyError Expression :=
  match pyFloat self.value with
  | .error er => .error er
  | .ok a =>
    match pyFloat value with
    | .error er => .error er
    | .ok b => self._ensure (a == b) true (self._message (toString a) (toString b) "equal to")

/-- `Expression.greater_than`: `_ensure(self.value > value, True, ...)`;
a `TypeError` from the comparison propagates. -/
def Expression.greater_than (self : Expression) (value : PyVal) : Except PyError Expression :=
  match pyGt self.value value with
  | .error er => .error er
  | .ok b =>
    self._ensure b true (self._message (pyStr self.value) (pyStr value) "greater than")

/-- `Expression.greater_than_or_equal_to`:
`_ensure(self.value >= value, True, ...)`. -/
def Expression.greater_than_or_equal_to (self : Expression) (value : PyVal) :
    Except PyError Expression :=
  match pyGe self.value value with
  | .error er => .error er
  | .ok b =>
    self._ensure b true
      (self._message (pyStr self.value) (pyStr value) "greater than or equal to")

/-- `Expression.less_than`: `_ensure(self.value < value, True, ...)`. -/
def Expression.less_than (self : Expression) (value : PyVal) : Except PyError Expression :=
  match pyLt self.value value with
  | .error er => .error er
  | .ok b => self._ensure b true (self._message (pyStr self.value) (pyStr value) "less than")

/-- `Expression.less_than_or_equal_to`:
`_ensure(self.value <= value, True, ...)`. -/
def Expression.less_than_or_equal_to (self : Expression) (value : PyVal) :
    Except PyError Expression :=
  match pyLe self.value value with
  | .error er => .error er
  | .ok b =>
    self._ensure b true
      (self._message (pyStr self.value) (pyStr value) "less than or equal to")

/-- `Expression.none`: `_ensure(self.value is None, True, ...)`. -/
def Expression.none (self : Expression) : Except PyError Expression :=
  self._ensure (isVNone self.value) true
    (pyStr self.value ++ " is" ++ (if self._determinant then " not" else "") ++ " None")

/-- `Expression.truthy`: `_ensure(bool(self.value), True, ...)`. -/
def Expression.truthy (self : Expression) : Except PyError Expression :=
  self._ensure (pyBool self.value) true
    (pyStr self.value ++ " "
      ++ (if self._determinant then "doesn't seem" else "seems") ++ " truthy")

/-- `Expression.falsy`: `_ensure(bool(self.value), False, ...)` — the only
matcher whose `value_to_match` is `False`. -/
def Expression.falsy (self : Expression) : Except PyError Expression :=
  self._ensure (pyBool self.value) false
    (pyStr self.value ++ " "
      ++ (if self._determinant then "doesn't seem" else "seems") ++ " falsy")

/-- `Expression.contains`: `_ensure(value in self.value, True, ...)` —
membership of the argument in the subject; a `TypeError` from `in`
propagates. -/
def Expression.contains (self : Expression) (value : PyVal) : Except PyError Expression :=
  match pyContains self.value value with
  | .error er => .error er
  | .ok b =>
    self._ensure b true
      (pyStr self.value ++ " was" ++ (if self._determinant then " not" else "")
        ++ " in " ++ pyStr value)

/-- `Expression.numeric`:
`_ensure(isinstance(self.value, Number), True, ...)`. -/
def Expression.numeric (self : Expression) : Except PyError Expression :=
  self._ensure (isNumberV self.value) true
    (pyStr self.value ++ " "
      ++ (if self._determinant then "doesn't seem" else "seems") ++ " numeric")

/-- `Expression.alphabetical`:
`_ensure(re.fullmatch("[a-zA-Z]*", self.value) is not None, True, ...)`;
`re.fullmatch` raises `TypeError` on a non-string subject. -/
def Expression.alphabetical (self : Expression) : Except PyError Expression :=
  match self.value with
  | .VStr s =>
    self._ensure (s.toList.all isAlphaAZ) true
      (pyStr self.value ++ " "
        ++ (if self._determinant then "doesn't seem" else "seems") ++ " alphabetical")
  | _ => .error ⟨.typeError, "expected string or bytes-like object"⟩

/-- `Expression.alphanumeric`:
`_ensure(re.fullmatch("[a-zA-Z0-9]*", self.value) is not None, True, ...)`
(its failure message says "alphabetical", reproducing the source's text). -/
def Expression.alphanumeric (self : Expression) : Except PyError Expression :=
  match self.value with
  | .VStr s =>
    self._ensure (s.toList.all isAlnumAZ09) true
      (pyStr self.value ++ " "
        ++ (if self._determinant then "doesn't seem" else "seems") ++ " alphabetical")
  | _ => .error ⟨.typeError, "expected string or bytes-like object"⟩

/-- `Expression.__eq__`: calls `self.equal_to(other)` and discards its
result; the method body has no `return`, so a passing comparison yields
Python `None` (modelled as `Option.none`), not the wrapper. -/
def Expression.__eq__ (self : Expression) (other : PyVal) :
    Except PyError (Option Expression) :=
  (self.equal_to other).map (fun _ => Option.none)

/-- `Expression.__lt__`: calls `self.less_than(other)`, discarding its
result (returns Python `None`). -/
def Expression.__lt__ (self : Expression) (other : PyVal) :
    Except PyError (Option Expression) :=
  (self.less_than other).map (fun _ => Option.none)

/-- `Expression.__le__`: calls `self.less_than_or_equal_to(other)`,
discarding its result (returns Python `None`). -/
def Expression.__le__ (self : Expression) (other : PyVal) :
    Except PyError (Option Expression) :=
  (self.less_than_or_equal_to other).map (fun _ => Option.none)

/-- `Expression.__gt__`: calls `self.greater_than(other)`, discarding its
result (returns Python `None`). -/
def Expression.__gt__ (self : Expression) (other : PyVal) :
    Except PyError (Option Expression) :=
  (self.greater_than other).map (fun _ => Option.none)

/-- `Expression.__ge__`: calls `self.greater_than_or_equal_to(other)`,
discarding its result (returns Python `None`). -/
def Expression.__ge__ (self : Expression) (other : PyVal) :
    Except PyError (Option Expression) :=
  (self.greater_than_or_equal_to other).map (fun _ => Option.none)

example : (Expression.init (.VStr "Foo")).equal_to (.VStr "Foo")
    = .ok (Expression.init (.VStr "Foo")) := rfl
example : (Expression.init (.VInt 20)).is_not_.equal_to (.VStr "apples")
    = .ok ((Expression.init (.VInt 20)).is_not_) := rfl
example : (Expression.init (.VInt 0)).falsy = .ok (Expression.init (.VInt 0)) := rfl
example : (Expression.init (.VInt 20)).equal_to_as_integer (.VStr "20")
    = .ok (Expression.init (.VInt 20)) := rfl

/-- One invocation of a named non-callable matcher of `Expression`,
together with its argument where the method takes one. -/
inductive MatcherCall : Type where
  | equal_to : PyVal → MatcherCall
  | equal_to_as_strings : PyVal → MatcherCall
  | equal_to_as_integer : PyVal → MatcherCall
  | equal_to_as_floating_point : PyVal → MatcherCall
  | greater_than : PyVal → MatcherCall
  | greater_than_or_equal_to : PyVal → MatcherCall
  | less_than : PyVal → MatcherCall
  | less_than_or_equal_to : PyVal → MatcherCall
  | none : MatcherCall
  | truthy : MatcherCall
  | falsy : MatcherCall
  | contains : PyVal → MatcherCall
  | numeric : MatcherCall
  | alphabetical : MatcherCall
  | alphanumeric : MatcherCall

/-- Dispatch of a named matcher invocation on a wrapper, covering every
non-callable matcher method of the `Expression` class. -/
def applyMatcher : MatcherCall → Expression → Except PyError Expression
  | .equal_to v, e => e.equal_to v
  | .equal_to_as_strings v, e => e.equal_to_as_strings v
  | .equal_to_as_integer v, e => e.equal_to_as_integer v
  | .equal_to_as_floating_point v, e => e.equal_to_as_floating_point v
  | .greater_than v, e => e.greater_than v
  | .greater_than_or_equal_to v, e => e.greater_than_or_equal_to v
  | .less_than v, e => e.less_than v
  | .less_than_or_equal_to v, e => e.less_than_or_equal_to v
  | .none, e => e.none
  | .truthy, e => e.truthy
  | .falsy, e => e.falsy
  | .contains v, e => e.contains v
  | .numeric, e => e.numeric
  | .alphabetical, e => e.alphabetical
  | .alphanumeric, e => e.alphanumeric

/-- Display name of an exception class (`e.__class__.__name__`). -/
def kindName : PyErrorKind → String
  | .unmetExpectation => "UnmetExpectation"
  | .assertionError => "AssertionError"
  | .valueError => "ValueError"
  | .typeError => "TypeError"
  | .exceptionK => "Exception"

/-- Concrete pattern text of a regex, used where the source interpolates
the pattern string into a failure message. -/
def Regex.pat : Regex → String
  | .emp => "[]"
  | .eps => ""
  | .chr c => String.singleton c
  | .dot => "."
  | .alt r s => r.pat ++ "|" ++ s.pat
  | .cat r s => r.pat ++ s.pat
  | .star r => r.pat ++ "*"

/-- The `Callable` wrapper of `src/compare3/Expression.py` (a subclass of
`Expression`; the embedding flattens the inheritance).  `value` holds the
wrapped callable, `args`/`kwargs` the captured arguments, and the
determinant starts affirmative.  Python callables may carry side effects,
so the embedding threads an explicit state `σ` through each invocation:
the stored callable maps positional arguments, keyword arguments and the
incoming state to the outgoing state plus either a returned value or a
raised exception.  The callable's display strings (`__name__`, `repr`) are
abstracted as `"<callable>"` in failure messages. -/
structure Callable (σ : Type) : Type where
  _determinant : Bool
  value : List PyVal → List (String × PyVal) → σ → σ × Except PyError PyVal
  args : List PyVal
  kwargs : List (String × PyVal)

/-- `Callable.__init__(self, expect, *args, **kwargs)`: stores the
callable and its arguments (no invocation happens here — the embedding of
construction is a pure record former that never touches the state). -/
def Callable.init {σ : Type}
    (expect : List PyVal → List (String × PyVal) → σ → σ × Except PyError PyVal)
    (args : List PyVal) (kwargs : List (String × PyVal)) : Callable σ :=
  ⟨true, expect, args, kwargs⟩

/-- `_ensure` as inherited by `Callable` from `Expression` (same body,
restated at the subclass type because the embedding flattens
inheritance). -/
def Callable._ensure {σ : Type} (self : Callable σ) (expression value_to_match : Bool)
    (message : String) : Except PyError (Callable σ) :=
  if self._determinant then
    if expression != value_to_match then .error ⟨.unmetExpectation, message⟩ else .ok self
  else
    if expression == value_to_match then .error ⟨.unmetExpectation, message⟩ else .ok self

/-- `_message` as inherited by `Callable` from `Expression`. -/
def Callable._message {σ : Type} (self : Callable σ) (expected actual : String)
    (msg_type : String) : String :=
  "'" ++ expected ++ "' is " ++ (if self._determinant then "not " else "")
    ++ msg_type ++ " '" ++ actual ++ "'"

/-- `Callable.returns`: invokes `self.value(*self.args, **self.kwargs)`
once, routes `return_val == expected` through `_ensure`, and — the method
body having no `return` statement — yields Python `None` on success.  An
exception raised by the callable propagates. -/
def Callable.returns {σ : Type} (self : Callable σ) (expected : PyVal) (s : σ) :
    σ × Except PyError (Option (Callable σ)) :=
  match self.value self.args self.kwargs s with
  | (s', r) =>
    match r with
    | .error e => (s', .error e)
    | .ok return_val =>
      match self._ensure (pyEq return_val expected) true
          ("<callable> " ++ (if self._determinant then "did not " else "")
            ++ "return " ++ pyStr expected ++ ", it returned "
            ++ pyStr return_val ++ " instead") with
      | .error e => (s', .error e)
      | .ok _ => (s', .ok Option.none)

/-- `Callable.raises`: invokes the callable once.  If no exception
propagates, raises `UnmetExpectation` (the `else` clause of the
`try`; note the source interpolates `exception_type.__class__.__name__`,
which is the literal string `"type"`).  If an exception `e` is caught,
`_ensure(isinstance(e, exception_type), True, ...)` runs, then — only when
a message pattern was supplied — `_ensure(re.fullmatch(pattern, str(e)) is
not None, True, ...)`.  Falling off the end of the handler yields Python
`None`. -/
def Callable.raises {σ : Type} (self : Callable σ) (exception_type : PyErrorKind)
    (exception_message : Option Regex) (s : σ) :
    σ × Except PyError (Option (Callable σ)) :=
  match self.value self.args self.kwargs s with
  | (s', r) =>
    match r with
    | .ok _ => (s', .error ⟨.unmetExpectation, "call '<callable>' did not raise 'type' error"⟩)
    | .error e =>
      match self._ensure (isinstanceK e.kind exception_type) true
          ("<callable> " ++ (if self._determinant then "did not " else "")
            ++ "raise type, it returned " ++ kindName e.kind ++ " instead") with
      | .error ue => (s', .error ue)
      | .ok self' =>
        match exception_message with
        | Option.none => (s', .ok Option.none)
        | some pat =>
          match self'._ensure (refullmatch pat e.msg) true
              (self'._message pat.pat e.msg "match pattern") with
          | .error ue => (s', .error ue)
          | .ok _ => (s', .ok Option.none)

/-- Wraps a pure embedded callable so that every invocation appends the
arguments it was passed to an observation trace carried in the state. -/
def instr (f : List PyVal → List (String × PyVal) → Except PyError PyVal) :
    List PyVal → List (String × PyVal)
      → List (List PyVal × List (String × PyVal))
      → List (List PyVal × List (String × PyVal)) × Except PyError PyVal :=
  fun a k s => (s ++ [(a, k)], f a k)

/-- The class attribute table of the `Expr` wrapper class of
`src/compare.py`, mapping attribute names to attached matcher callables
(`M` is the type of those callables; registration is agnostic to it). -/
def ClassDict (M : Type) : Type := String → Option M

/-- `matcher` from `src/compare.py`: `setattr(expect, obj.__name__, obj)`
— attaches `obj` to the wrapper class under its name, overwriting any
prior attribute of that name.  (The source reads the name from
`obj.__name__`; the embedding passes it explicitly.) -/
def matcher {M : Type} (d : ClassDict M) (name : String) (obj : M) : ClassDict M :=
  fun n => if n = name then some obj else d n

/-- The `Expr` wrapper class of `src/compare.py`: `__init__` stores the
determinant (`True`), the wrapped value and the captured call
arguments. -/
structure Expr : Type where
  _determinant : Bool
  value : PyVal
  args : List PyVal
  kwargs : List (String × PyVal)

/-- `Expr.__init__`. -/
def Expr.init (expr : PyVal) (args : List PyVal) (kwargs : List (String × PyVal)) : Expr :=
  ⟨true, expr, args, kwargs⟩

/-- Attribute lookup `inst.name` for matcher names on an `Expr` instance:
instances carry no matcher attributes of their own, so lookup falls
through to the class attribute table regardless of which instance — or
when it was created — the lookup starts from. -/
def getattrExpr {M : Type} (d : ClassDict M) (_inst : Expr) (name : String) : Option M :=
  d name

mutual

/-- Python `==` is reflexive on the modelled values. -/
theorem pyEq_refl : ∀ v : PyVal, pyEq v v = true
  | .VNone => rfl
  | .VBool b => by simp [pyEq]
  | .VInt n => by simp [pyEq]
  | .VStr s => by simp [pyEq]
  | .VList l => by simp [pyEq, pyEqList_refl l]
  | .VDict d => by simp [pyEq, pyEqDict_refl d]

/-- Elementwise list equality is reflexive. -/
theorem pyEqList_refl : ∀ l : List PyVal, pyEqList l l = true
  | [] => rfl
  | a :: as => by simp [pyEqList, pyEq_refl a, pyEqList_refl as]

/-- Entrywise dict equality is reflexive. -/
theorem pyEqDict_refl : ∀ d : List (PyVal × PyVal), pyEqDict d d = true
  | [] => rfl
  | (k, v) :: as => by simp [pyEqDict, pyEq_refl k, pyEq_refl v, pyEqDict_refl as]

end

/-- `_ensure` either raises or hands back the very wrapper it was called
on. -/
theorem ensure_ok_eq {e e' : Expression} {b t : Bool} {m : String}
    (h : e._ensure b t m = .ok e') : e' = e := by
  unfold Expression._ensure at h
  split at h <;> split at h <;> simp_all

/-- Every named non-callable matcher either raises or hands back the very
wrapper it was invoked on. -/
theorem applyMatcher_ok_eq {m : MatcherCall} {e e' : Expression}
    (h : applyMatcher m e = .ok e') : e' = e := by
  cases m <;>
    simp only [applyMatcher, Expression.equal_to, Expression.equal_to_as_strings,
      Expression.equal_to_as_integer, Expression.equal_to_as_floating_point,
      Expression.greater_than, Expression.greater_than_or_equal_to,
      Expression.less_than, Expression.less_than_or_equal_to, Expression.none,
      Expression.truthy, Expression.falsy, Expression.contains,
      Expression.numeric, Expression.alphabetical, Expression.alphanumeric] at h <;>
    (try split at h) <;> (try split at h) <;>
    first
      | exact ensure_ok_eq h
      | simp_all

/-- C1: for every subject `v`, `expect(v).equal_to(v)` under the default
affirmative polarity passes and hands back the wrapper, while negating the
polarity via `is_not_` and then calling `equal_to(v)` raises
`UnmetExpectation`. -/
theorem spec_C1 (v : PyVal) :
    (Expression.init v).equal_to v = .ok (Expression.init v)
    ∧ ∃ m, (Expression.init v).is_not_.equal_to v = .error ⟨.unmetExpectation, m⟩ := by
  constructor
  · simp [Expression.init, Expression.equal_to, Expression._ensure, pyEq_refl]
  · refine ⟨(Expression.init v).is_not_._message (pyStr v) (pyStr v) "equal to", ?_⟩
    simp [Expression.init, Expression.is_not_, Expression.equal_to, Expression._ensure,
      pyEq_refl]

/-- C2 counterexample: applying the negation accessor `is_not_` twice is
not equivalent to no negation — `expect("a").equal_to("a")` passes, yet
after invoking `is_not_` two times the same comparison raises
`UnmetExpectation`, because `is_not_` sets the determinant to `False`
rather than toggling it. -/
theorem spec_C2_counterexample :
    (Expression.init (.VStr "a")).equal_to (.VStr "a")
        = .ok (Expression.init (.VStr "a"))
    ∧ (Expression.init (.VStr "a")).is_not_.is_not_.equal_to (.VStr "a")
        = .error ⟨.unmetExpectation, "'a' is equal to 'a'"⟩ :=
  ⟨rfl, rfl⟩

/-- C2 (amended): the negation accessor is idempotent, not involutive —
invoking `is_not_` twice leaves the wrapper exactly as one invocation
does (polarity negated), so every matcher's outcome after two invocations
equals its outcome after one, not the affirmative outcome. -/
theorem spec_C2 (e : Expression) (m : MatcherCall) :
    e.is_not_.is_not_ = e.is_not_
    ∧ applyMatcher m e.is_not_.is_not_ = applyMatcher m e.is_not_ :=
  ⟨rfl, rfl⟩

/-- C3 counterexample: the operator alias `__eq__` (i.e. `expect(5) == 5`)
evaluates the predicate and passes, but returns Python `None`, not the
wrapper instance it was invoked on — its body calls `equal_to` without
returning the result. -/
theorem spec_C3_counterexample :
    (Expression.init (.VInt 5)).__eq__ (.VInt 5) = .ok Option.none
    ∧ (Expression.init (.VInt 5)).__eq__ (.VInt 5)
        ≠ .ok (some (Expression.init (.VInt 5))) := by
  constructor
  · rfl
  · intro h
    rw [show (Expression.init (.VInt 5)).__eq__ (.VInt 5) = .ok Option.none from rfl] at h
    exact Option.noConfusion (Except.ok.inj h)

/-- C3 (amended): every named value matcher, when its predicate matches
the current polarity, hands back the very wrapper instance it was invoked
on (enabling chaining), and otherwise raises; the operator aliases
(`__eq__`, `__lt__`, `__le__`, `__gt__`, `__ge__`) and the callable
matcher `returns(expected)` perform the identical predicate/polarity
evaluation but return Python `None` instead of the wrapper. -/
theorem spec_C3 :
    (∀ (m : MatcherCall) (e e' : Expression), applyMatcher m e = .ok e' → e' = e)
    ∧ (∀ (e : Expression) (v : PyVal),
        e.__eq__ v = (e.equal_to v).map (fun _ => Option.none))
    ∧ (∀ (e : Expression) (v : PyVal),
        e.__lt__ v = (e.less_than v).map (fun _ => Option.none))
    ∧ (∀ (e : Expression) (v : PyVal),
        e.__le__ v = (e.less_than_or_equal_to v).map (fun _ => Option.none))
    ∧ (∀ (e : Expression) (v : PyVal),
        e.__gt__ v = (e.greater_than v).map (fun _ => Option.none))
    ∧ (∀ (e : Expression) (v : PyVal),
        e.__ge__ v = (e.greater_than_or_equal_to v).map (fun _ => Option.none))
    ∧ (∀ (σ : Type) (c : Callable σ) (expected : PyVal) (s : σ) (r : Option (Callable σ)),
        (c.returns expected s).2 = .ok r → r = Option.none) := by
  refine ⟨fun m e e' h => applyMatcher_ok_eq h, fun _ _ => rfl, fun _ _ => rfl,
    fun _ _ => rfl, fun _ _ => rfl, fun _ _ => rfl, ?_⟩
  intro σ c expected s r h
  rcases hv : c.value c.args c.kwargs s with ⟨s', res⟩
  cases res with
  | error e => simp [Callable.returns, hv] at h
  | ok rv =>
    simp only [Callable.returns, hv] at h
    unfold Callable._ensure at h
    split at h <;> simp_all

/-- C3 witness: the hypothesis of the chaining conjunct is satisfiable —
`expect(1).equal_to(1)` passes and hands back the wrapper. -/
theorem spec_C3_witness :
    Expression.init (.VInt 1) = Expression.init (.VInt 1) :=
  spec_C3.1 (.equal_to (.VInt 1)) (Expression.init (.VInt 1))
    (Expression.init (.VInt 1)) rfl

/-- C4: `raises` under affirmative polarity — if the callable raises no
exception, `raises` fails with `UnmetExpectation`; if it raises one that
is not an instance of the expected class, `raises` fails with
`UnmetExpectation`; if a message pattern is supplied (and the class
matches), `raises` passes exactly when the exception's message fully
matches the pattern, and otherwise fails with `UnmetExpectation`. -/
theorem spec_C4 (σ : Type) (c : Callable σ) (s : σ) (etype : PyErrorKind)
    (p : Option Regex) (hdet : c._determinant = true) :
    (∀ s' rv, c.value c.args c.kwargs s = (s', .ok rv) →
        ∃ m, c.raises etype p s = (s', .error ⟨.unmetExpectation, m⟩))
    ∧ (∀ s' e, c.value c.args c.kwargs s = (s', .error e) →
        isinstanceK e.kind etype = false →
        ∃ m, c.raises etype p s = (s', .error ⟨.unmetExpectation, m⟩))
    ∧ (∀ s' e pat, c.value c.args c.kwargs s = (s', .error e) →
        isinstanceK e.kind etype = true → p = some pat →
        (refullmatch pat e.msg = true → c.raises etype p s = (s', .ok Option.none))
        ∧ (refullmatch pat e.msg = false →
            ∃ m, c.raises etype p s = (s', .error ⟨.unmetExpectation, m⟩))) := by
  refine ⟨?_, ?_, ?_⟩
  · intro s' rv h
    refine ⟨"call '<callable>' did not raise 'type' error", ?_⟩
    simp [Callable.raises, h]
  · intro s' e h hinst
    refine ⟨"<callable> did not raise type, it returned " ++ kindName e.kind ++ " instead", ?_⟩
    simp [Callable.raises, h, Callable._ensure, hdet, hinst]
  · intro s' e pat h hinst hp
    subst hp
    constructor
    · intro hm
      simp [Callable.raises, h, Callable._ensure, hdet, hinst, hm]
    · intro hm
      refine ⟨c._message pat.pat e.msg "match pattern", ?_⟩
      simp [Callable.raises, h, Callable._ensure, hdet, hinst, hm]

/-- A callable that raises `ValueError("boom")`, for concrete checks. -/
def boomCallable : Callable Unit :=
  Callable.init (fun _ _ s => (s, .error ⟨.valueError, "boom"⟩)) [] []

/-- C4 witness: a callable raising `ValueError("boom")` checked with
`raises(ValueError, "boom")` passes. -/
theorem spec_C4_witness :
    boomCallable.raises .valueError (some (Regex.lit "boom")) () = ((), .ok Option.none) :=
  ((spec_C4 Unit boomCallable () .valueError (some (Regex.lit "boom")) rfl).2.2
    () ⟨.valueError, "boom"⟩ (Regex.lit "boom") rfl rfl rfl).1 rfl

/-- C5: `equal_to_as_integer` is coercion-symmetric —
`expect("20").equal_to_as_integer(20)` and
`expect(20).equal_to_as_integer("20")` both pass — and
`expect("20.5").equal_to_as_integer(20)` raises the underlying
`ValueError` from `int("20.5")`, a kind distinct from
`UnmetExpectation` (neither swallowed nor reinterpreted). -/
theorem spec_C5 :
    (Expression.init (.VStr "20")).equal_to_as_integer (.VInt 20)
        = .ok (Expression.init (.VStr "20"))
    ∧ (Expression.init (.VInt 20)).equal_to_as_integer (.VStr "20")
        = .ok (Expression.init (.VInt 20))
    ∧ (Expression.init (.VStr "20.5")).equal_to_as_integer (.VInt 20)
        = .error ⟨.valueError, "invalid literal for int() with base 10: '20.5'"⟩
    ∧ PyErrorKind.valueError ≠ PyErrorKind.unmetExpectation :=
  ⟨rfl, rfl, rfl, by decide⟩

/-- C6: constructing a callable wrapper stores the callable with its
positional and keyword arguments (and performs no invocation — the
embedded constructor is a pure record former); `returns(expected)` invokes
the callable exactly once with exactly the stored arguments (the
observation trace grows by the single entry `(args, kwargs)`), compares
the result to `expected` via `==`, and propagates any exception the
callable raises. -/
theorem spec_C6 (f : List PyVal → List (String × PyVal) → Except PyError PyVal)
    (args : List PyVal) (kwargs : List (String × PyVal)) (expected : PyVal)
    (s : List (List PyVal × List (String × PyVal))) :
    (Callable.init (instr f) args kwargs)._determinant = true
    ∧ (Callable.init (instr f) args kwargs).args = args
    ∧ (Callable.init (instr f) args kwargs).kwargs = kwargs
    ∧ (Callable.init (instr f) args kwargs).value = instr f
    ∧ ((Callable.init (instr f) args kwargs).returns expected s).1 = s ++ [(args, kwargs)]
    ∧ (∀ rv, f args kwargs = .ok rv →
        (((Callable.init (instr f) args kwargs).returns expected s).2 = .ok Option.none
          ↔ pyEq rv expected = true))
    ∧ (∀ er, f args kwargs = .error er →
        ((Callable.init (instr f) args kwargs).returns expected s).2 = .error er) := by
  refine ⟨rfl, rfl, rfl, rfl, ?_, ?_, ?_⟩
  · cases hf : f args kwargs with
    | error er => simp [Callable.returns, Callable.init, instr, hf]
    | ok rv =>
      cases hpe : pyEq rv expected <;>
        simp [Callable.returns, Callable.init, instr, hf, Callable._ensure, hpe]
  · intro rv hf
    cases hpe : pyEq rv expected <;>
      simp [Callable.returns, Callable.init, instr, hf, Callable._ensure, hpe]
  · intro er hf
    simp [Callable.returns, Callable.init, instr, hf]

/-- C6 witness: wrapping `fun args => ok (VInt args.length)` with one
positional argument and calling `returns(1)` passes. -/
theorem spec_C6_witness :
    ((Callable.init (instr (fun a _ => .ok (.VInt a.length))) [.VInt 7] []).returns
        (.VInt 1) []).2 = .ok Option.none :=
  ((spec_C6 (fun a _ => .ok (.VInt a.length)) [.VInt 7] [] (.VInt 1) []).2.2.2.2.2.1
    (.VInt 1) rfl).mpr rfl

/-- C7: `matcher` registration attaches the function to the wrapper class
under the given name, visible through attribute lookup from every
instance (existing or future — lookup is instance-independent);
registering a second function under the same name silently replaces the
first (last registration wins), and no other name's lookup changes. -/
theorem spec_C7 (M : Type) (d : ClassDict M) (name : String) (f g : M)
    (inst inst' : Expr) (n : String) :
    getattrExpr (matcher d name f) inst name = some f
    ∧ getattrExpr (matcher (matcher d name f) name g) inst name = some g
    ∧ (n ≠ name → getattrExpr (matcher d name f) inst n = getattrExpr d inst' n) :=
  ⟨by simp [getattrExpr, matcher], by simp [getattrExpr, matcher],
    fun h => by simp [getattrExpr, matcher, h]⟩

/-- C7 witness: registering `is_palindrome` leaves the lookup of the
unrelated name `to_equal` unchanged. -/
theorem spec_C7_witness :
    getattrExpr (matcher (fun _ => Option.none) "is_palindrome" (1 : Nat))
        (Expr.init (.VStr "abba") [] []) "to_equal"
      = getattrExpr (fun _ => Option.none) (Expr.init .VNone [] []) "to_equal" :=
  (spec_C7 Nat (fun _ => Option.none) "is_palindrome" 1 2
    (Expr.init (.VStr "abba") [] []) (Expr.init .VNone [] []) "to_equal").2.2 (by decide)

/-- C8: `contains` is membership of the argument in the subject —
`expect([1,2,3]).contains(2)`, `expect("abc").contains("b")` and
`expect({"x": 1}).contains("x")` (key membership) pass, while
`expect([1,2,3]).contains(9)` raises `UnmetExpectation`. -/
theorem spec_C8 :
    (Expression.init (.VList [.VInt 1, .VInt 2, .VInt 3])).contains (.VInt 2)
        = .ok (Expression.init (.VList [.VInt 1, .VInt 2, .VInt 3]))
    ∧ (Expression.init (.VStr "abc")).contains (.VStr "b")
        = .ok (Expression.init (.VStr "abc"))
    ∧ (Expression.init (.VDict [(.VStr "x", .VInt 1)])).contains (.VStr "x")
        = .ok (Expression.init (.VDict [(.VStr "x", .VInt 1)]))
    ∧ (Expression.init (.VList [.VInt 1, .VInt 2, .VInt 3])).contains (.VInt 9)
        = .error ⟨.unmetExpectation, "[1, 2, 3] was not in 9"⟩ :=
  ⟨rfl, rfl, rfl, rfl⟩

/-- C9: a passing non-callable matcher never changes the stored subject,
and calling the same matcher again on the returned wrapper with the same
argument yields the same outcome. -/
theorem spec_C9 (m : MatcherCall) (e e' : Expression)
    (h : applyMatcher m e = .ok e') :
    e'.value = e.value ∧ applyMatcher m e' = applyMatcher m e := by
  have he := applyMatcher_ok_eq h
  subst he
  exact ⟨rfl, rfl⟩

/-- C9 witness: `expect("abba").equal_to("abba")` passes, keeps the
subject, and repeats identically. -/
theorem spec_C9_witness :
    (Expression.init (.VStr "abba")).value = (Expression.init (.VStr "abba")).value
    ∧ applyMatcher (.equal_to (.VStr "abba")) (Expression.init (.VStr "abba"))
        = applyMatcher (.equal_to (.VStr "abba")) (Expression.init (.VStr "abba")) :=
  spec_C9 (.equal_to (.VStr "abba")) (Expression.init (.VStr "abba"))
    (Expression.init (.VStr "abba")) rfl

/-- C10: the `and_` chaining accessor resets the polarity to affirmative —
after `w.and_` the determinant is `True` whatever it was before, the same
effect as `is_`. -/
theorem spec_C10 (e : Expression) :
    e.and_._determinant = true ∧ e.and_ = e.is_ :=
  ⟨rfl, rfl⟩
